import Mathlib

/-!
Verification development for the AUTOSAR ARXML configuration engine
(`server/autosar_utils.py`).

The Python module builds XML trees with `lxml.etree`, serializes them, and
validates/merges serialized documents.  We embed the element trees as the
inductive type `XElem` (tag, text, declared default namespace, children) and
translate each Python function into a pure Lean function on those trees:

* generators (`generate_can_config`, `generate_nvm_config`) become functions
  producing the final tree (the Python code only performs straight-line
  `SubElement` appends, so the resulting tree is a direct expression);
* the validator (`validate_arxml`) becomes a function of what it can observe
  of its string input: the string's length and the result of parsing it;
* the merger (`merge_configurations`) becomes a fold over the fragment list;
* `calculate_can_timing` and the write-strategy table become pure lookups.

The wall-clock timestamp written by `add_admin_data` is passed in as an
explicit `now : String` argument.  Attributes (only `xsi:schemaLocation` is
ever set, and no claim inspects attributes) are not modelled.
-/

/-- An XML element as built by `lxml.etree`: a tag, optional text, the
default namespace declared on the element (the `None` entry of `nsmap`,
only ever set on document roots by this code), and the child elements. -/
inductive XElem : Type where
  | mk : String → Option String → Option String → List XElem → XElem

def XElem.tag : XElem → String
  | .mk t _ _ _ => t

def XElem.text : XElem → Option String
  | .mk _ x _ _ => x

def XElem.nsdefault : XElem → Option String
  | .mk _ _ ns _ => ns

def XElem.children : XElem → List XElem
  | .mk _ _ _ cs => cs

/-- `etree.SubElement(parent, ...)`: append a child at the end. -/
def XElem.appendChild : XElem → XElem → XElem
  | .mk t x ns cs, c => .mk t x ns (cs ++ [c])

/-- Shorthand for an element with children and no text. -/
def xe (tag : String) (cs : List XElem) : XElem := .mk tag none none cs

/-- Shorthand for a leaf element carrying text (`SubElement(...).text = s`). -/
def xt (tag : String) (s : String) : XElem := .mk tag (some s) none []

mutual
/-- All proper descendants of an element in document (preorder) order,
as returned by `element.findall(".//*")`. -/
def XElem.descendants : XElem → List XElem
  | .mk _ _ _ cs => descList cs
/-- Descendant closure of a list of sibling elements, in document order. -/
def descList : List XElem → List XElem
  | [] => []
  | c :: cs => (c :: c.descendants) ++ descList cs
end

/-- `parent.find(tag)`: the first direct child with the given tag. -/
def find_child (e : XElem) (t : String) : Option XElem :=
  e.children.find? (fun c => c.tag == t)

/-- `root.findall(".//" + tag)`: every descendant with the given tag,
in document order. -/
def findall_tag (root : XElem) (t : String) : List XElem :=
  root.descendants.filter (fun c => c.tag == t)

/-- Text of the first direct child with the given tag, if any. -/
def child_text (e : XElem) (t : String) : Option String :=
  (find_child e t).bind XElem.text

/-! ## Python string/number primitives used by the source -/

/-- Python `str.startswith` on character lists. -/
def startsList : List Char → List Char → Bool
  | [], _ => true
  | _ :: _, [] => false
  | a :: as, b :: bs => a == b && startsList as bs

/-- Python's `needle in hay` substring test, on character lists. -/
def containsList : List Char → List Char → Bool
  | ns, [] => startsList ns []
  | ns, h :: hs => startsList ns (h :: hs) || containsList ns hs

/-- Python's `needle in hay` on strings. -/
def pyStrIn (needle hay : String) : Bool := containsList needle.data hay.data

/-- Python's `s.endswith(t)`. -/
def pyEndsWith (s t : String) : Bool := List.isSuffixOf t.data s.data

/-- Python's `range(n)` (as a list of ints; empty for `n <= 0`). -/
def pyrange (n : Int) : List Int := (List.range n.toNat).map Int.ofNat

/-- Python's `hex(n)`: `0x`-prefixed lowercase hexadecimal, `-0x...` for
negative arguments, `0x0` for zero. -/
def pyhex (n : Int) : String :=
  if n < 0 then "-0x" ++ String.mk (Nat.toDigits 16 (-n).toNat)
  else "0x" ++ String.mk (Nat.toDigits 16 n.toNat)

/-! ## `ARXMLGenerator` (document builder) -/

/-- The AUTOSAR default namespace URI (`ARXMLGenerator.NAMESPACES[None]`). -/
def autosarNS : String := "http://autosar.org/schema/r4.0"

/-- `ARXMLGenerator.SCHEMA_LOCATIONS.get(version, "AUTOSAR_4-2-2.xsd")`
(constructor line `self.schema_location = ...`). -/
def schema_location (version : String) : String :=
  if version = "4.0.3" then "AUTOSAR_4-0-3.xsd"
  else if version = "4.2.2" then "AUTOSAR_4-2-2.xsd"
  else if version = "4.3.1" then "AUTOSAR_00048.xsd"
  else if version = "4.4.0" then "AUTOSAR_00050.xsd"
  else "AUTOSAR_4-2-2.xsd"

/-- The subtree appended by `ARXMLGenerator.add_admin_data`:
`ADMIN-DATA / DOC-REVISIONS / DOC-REVISION / (REVISION-LABEL, DATE)`.
`now` stands for `datetime.utcnow().strftime("%Y-%m-%dT%H:%M:%S")`. -/
def admin_data_subtree (doc_revision now : String) : XElem :=
  xe "ADMIN-DATA"
    [ xe "DOC-REVISIONS"
        [ xe "DOC-REVISION"
            [ xt "REVISION-LABEL" doc_revision,
              xt "DATE" now ] ] ]

/-- Helper for `create_ar_package`: `parent.find("AR-PACKAGES")` followed by
`SubElement` appends.  If some direct child is tagged `AR-PACKAGES`, the new
`AR-PACKAGE` is appended inside the first such child; otherwise a fresh
`AR-PACKAGES` container holding it is appended at the end. -/
def append_into_first_container (pkg : XElem) : List XElem → List XElem
  | [] => [XElem.mk "AR-PACKAGES" none none [pkg]]
  | c :: cs =>
    if c.tag == "AR-PACKAGES" then c.appendChild pkg :: cs
    else c :: append_into_first_container pkg cs

/-- `ARXMLGenerator.create_ar_package(parent, short_name)`, as a pure update
of the parent element.  (The Python function returns the new `AR-PACKAGE`
node; we return the updated parent, which carries the same information in a
pure setting.) -/
def create_ar_package (parent : XElem) (short_name : String) : XElem :=
  XElem.mk parent.tag parent.text parent.nsdefault
    (append_into_first_container
      (XElem.mk "AR-PACKAGE" none none [xt "SHORT-NAME" short_name])
      parent.children)

/-! ## Timing resolver -/

/-- The timing parameter record returned by `calculate_can_timing`. -/
structure CanTiming where
  prop_seg : Nat
  phase_seg1 : Nat
  phase_seg2 : Nat
  sjw : Nat
deriving DecidableEq

/-- `calculate_can_timing(baudrate_kbps)`: the fixed lookup table
`timing_configs.get(baudrate_kbps, timing_configs[500])`. -/
def calculate_can_timing (baudrate_kbps : Int) : CanTiming :=
  if baudrate_kbps = 125 then ⟨6, 7, 2, 1⟩
  else if baudrate_kbps = 250 then ⟨6, 7, 2, 1⟩
  else if baudrate_kbps = 500 then ⟨6, 7, 2, 1⟩
  else if baudrate_kbps = 1000 then ⟨5, 6, 2, 1⟩
  else ⟨6, 7, 2, 1⟩

/-! ## CAN configuration generator -/

/-- The parameter record consumed by `generate_can_config` (with the two
optional booleans already defaulted, as `params.get(..., default)` does). -/
structure CanParams where
  ecuType : String
  baudrate : Int
  messageObjects : Int
  errorHandling : Bool
  wakeupSupport : Bool

/-- One `CAN-HW-OBJECT` built in the message-object loop of
`generate_can_config` (index `i`): direction alternates starting at
TRANSMIT, id type is fixed STANDARD, object id is `str(0x100 + i)`. -/
def can_hw_object (i : Int) : XElem :=
  xe "CAN-HW-OBJECT"
    [ xt "SHORT-NAME" ("CanHwObject_" ++ toString i),
      xt "OBJECT-TYPE" (if i % 2 = 0 then "TRANSMIT" else "RECEIVE"),
      xt "ID-TYPE" "STANDARD",
      xt "CAN-OBJECT-ID" (toString (256 + i)) ]

/-- The `CAN-CONTROLLER-BAUDRATE-CONFIG` subtree: baudrate converted to bps
(`str(baudrate * 1000)`) and the four timing fields from
`calculate_can_timing`. -/
def baudrate_config_subtree (baudrate : Int) : XElem :=
  xe "CAN-CONTROLLER-BAUDRATE-CONFIG"
    [ xt "BAUDRATE" (toString (baudrate * 1000)),
      xt "PROP-SEG" (toString (calculate_can_timing baudrate).prop_seg),
      xt "PHASE-SEG1" (toString (calculate_can_timing baudrate).phase_seg1),
      xt "PHASE-SEG2" (toString (calculate_can_timing baudrate).phase_seg2),
      xt "SYNC-JUMP-WIDTH" (toString (calculate_can_timing baudrate).sjw) ]

/-- The `CAN-ERROR-HANDLING` subtree added when `errorHandling` is true. -/
def error_handling_subtree : XElem :=
  xe "CAN-ERROR-HANDLING"
    [ xt "BUS-OFF-RECOVERY" "AUTOMATIC",
      xt "ERROR-PASSIVE-MODE" "ENABLED",
      xt "ERROR-WARNING-THRESHOLD" "96" ]

/-- The `CAN-WAKEUP-SUPPORT` subtree added when `wakeupSupport` is true. -/
def wakeup_subtree : XElem :=
  xe "CAN-WAKEUP-SUPPORT"
    [ xt "WAKEUP-ENABLED" "true",
      xt "WAKEUP-FILTER-ENABLED" "true" ]

/-- The tree built by `generate_can_config(params)` (the function returns
`generator.to_string(root)`; serialization is a formatting step, so we keep
the tree).  Root with default namespace, admin data "1.0.0",
package `CanConfiguration`, `ELEMENTS`, one `CAN-CONTROLLER` holding the
short name, baudrate config, the message-object loop and the two optional
blocks. -/
def generate_can_config_tree (p : CanParams) (now : String) : XElem :=
  XElem.mk "AUTOSAR" none (some autosarNS)
    [ admin_data_subtree "1.0.0" now,
      xe "AR-PACKAGES"
        [ xe "AR-PACKAGE"
            [ xt "SHORT-NAME" "CanConfiguration",
              xe "ELEMENTS"
                [ xe "CAN-CONTROLLER"
                    ( [ xt "SHORT-NAME" ("CanController_" ++ p.ecuType),
                        baudrate_config_subtree p.baudrate ]
                      ++ (pyrange p.messageObjects).map can_hw_object
                      ++ (if p.errorHandling then [error_handling_subtree] else [])
                      ++ (if p.wakeupSupport then [wakeup_subtree] else []) ) ] ] ] ]

/-! ## NvM configuration generator -/

/-- The parameter record consumed by `generate_nvm_config` (optional
booleans already defaulted). -/
structure NvmParams where
  blockCount : Int
  blockSize : Int
  writeStrategy : String
  crcProtection : Bool
  redundancy : Bool
  wearLeveling : Bool

/-- `write_strategy_map.get(params['writeStrategy'], "NVM_WRITE_BLOCK_CYCLIC")`. -/
def write_strategy_map (w : String) : String :=
  if w = "immediate" then "NVM_WRITE_BLOCK_ONCE"
  else if w = "deferred" then "NVM_WRITE_BLOCK_CYCLIC"
  else if w = "triggered" then "NVM_WRITE_BLOCK_TRIGGERED"
  else "NVM_WRITE_BLOCK_CYCLIC"

/-- One `NVM-BLOCK` built in the block loop of `generate_nvm_config`
(index `i`): 1-based id `str(i + 1)`, length `str(blockSize)`, mapped write
strategy, optional CRC and redundancy blocks, and an EEPROM storage
descriptor at address `hex(i * blockSize)`. -/
def nvm_block (p : NvmParams) (i : Int) : XElem :=
  xe "NVM-BLOCK"
    ( [ xt "SHORT-NAME" ("NvMBlock_" ++ toString i),
        xt "NVM-BLOCK-ID" (toString (i + 1)),
        xt "NVM-BLOCK-LENGTH" (toString p.blockSize),
        xt "NVM-WRITE-STRATEGY" (write_strategy_map p.writeStrategy) ]
      ++ (if p.crcProtection then [xe "NVM-BLOCK-CRC-TYPE" [xt "CRC-TYPE" "NVM_CRC_16"]] else [])
      ++ (if p.redundancy then [xe "NVM-REDUNDANCY" [xt "REDUNDANT-BLOCK-COUNT" "1"]] else [])
      ++ [ xe "NVM-BLOCK-STORAGE"
             [ xt "STORAGE-DEVICE" "EEPROM",
               xt "STORAGE-ADDRESS" (pyhex (i * p.blockSize)) ] ] )

/-- The `NVM-WEAR-LEVELING` subtree added when `wearLeveling` is true. -/
def wear_leveling_subtree : XElem :=
  xe "NVM-WEAR-LEVELING"
    [ xt "WEAR-LEVELING-ENABLED" "true",
      xt "WEAR-LEVELING-THRESHOLD" "1000" ]

/-- The tree built by `generate_nvm_config(params)`. -/
def generate_nvm_config_tree (p : NvmParams) (now : String) : XElem :=
  XElem.mk "AUTOSAR" none (some autosarNS)
    [ admin_data_subtree "1.0.0" now,
      xe "AR-PACKAGES"
        [ xe "AR-PACKAGE"
            [ xt "SHORT-NAME" "NvMConfiguration",
              xe "ELEMENTS"
                [ xe "NVM-BLOCK-DESCRIPTOR"
                    ( [ xt "SHORT-NAME" "NvMBlockConfiguration",
                        xe "NVM-BLOCKS" ((pyrange p.blockCount).map (nvm_block p)) ]
                      ++ (if p.wearLeveling then [wear_leveling_subtree] else []) ) ] ] ] ]

/-! ## Validator (`validate_arxml`) -/

/-- A namespace-qualified tag as produced by lxml when parsing a document
with a default namespace: the URI in braces followed by the local name. -/
def qtag (t : String) : String := "\x7b" ++ autosarNS ++ "\x7d" ++ t

/-- What `validate_arxml` can observe of its `arxml_content` string
argument: the string's length (used only by the `< 500` recommendation)
and the outcome of `etree.fromstring` — the parsed root element, or the
message of the `XMLSyntaxError` the parse raised. -/
structure ArxmlInput where
  len : Nat
  parsed : Except String XElem

/-- The result record returned by `validate_arxml`. -/
structure ValidationReport where
  valid : Bool
  errors : List String
  warnings : List String
  recommendations : List String
  elementCount : Nat

/-- Python's `list.count` on the collected SHORT-NAME texts. -/
def pycount (l : List (Option String)) (x : Option String) : Nat :=
  (l.filter (fun y => y == x)).length

/-- `set([name for name in short_names if short_names.count(name) > 1])`:
the distinct values occurring more than once.  (Python's set iteration
order is unspecified; only emptiness and membership matter to any claim.) -/
def duplicate_names (l : List (Option String)) : List (Option String) :=
  (l.filter (fun n => decide (1 < pycount l n))).dedup

/-- Root-element check of `validate_arxml`:
`root.tag != "AUTOSAR" and not root.tag.endswith("}AUTOSAR")`. -/
def root_tag_errors (root : XElem) : List String :=
  if !(root.tag == "AUTOSAR") && !(pyEndsWith root.tag "\x7dAUTOSAR") then
    ["Root element must be <AUTOSAR>"]
  else []

/-- AR-PACKAGES presence check: namespace-qualified `findall` with an
unqualified fallback; absence is a warning. -/
def ar_packages_warnings (root : XElem) : List String :=
  if (findall_tag root (qtag "AR-PACKAGES")).isEmpty
      && (findall_tag root "AR-PACKAGES").isEmpty then
    ["No AR-PACKAGES found in configuration"]
  else []

/-- Namespace check:
`'http://autosar.org/schema/r4.0' not in (root.nsmap.get(None, '') or '')`.
Note the source tests substring containment, not equality. -/
def namespace_warnings (root : XElem) : List String :=
  if !(pyStrIn autosarNS ((root.nsdefault).getD "")) then
    ["Standard AUTOSAR namespace not declared"]
  else []

/-- The SHORT-NAME text values collected for the uniqueness check:
namespace-qualified `findall`, falling back to unqualified when the first
list is empty. -/
def short_names_of (root : XElem) : List (Option String) :=
  let q := (findall_tag root (qtag "SHORT-NAME")).map XElem.text
  if q.isEmpty then (findall_tag root "SHORT-NAME").map XElem.text else q

/-- Duplicate-short-name warning.  (Python joins the duplicate set with
`', '.join`; the claims depend only on whether the warning is present, so
missing texts are rendered as the empty string here.) -/
def duplicate_warnings (root : XElem) : List String :=
  let dups := duplicate_names (short_names_of root)
  if dups.isEmpty then []
  else ["Duplicate SHORT-NAMEs found: "
          ++ String.intercalate ", " (dups.map (fun o => o.getD ""))]

/-- `validate_arxml(arxml_content, autosar_version)`.  On a parse failure
the `except etree.XMLSyntaxError` branch records exactly one error and the
report is returned with `elementCount = 0` (`root` is not in `locals()`).
Otherwise the checks append independently; `valid` is
`len(errors) == 0`, and `elementCount` is `len(root.findall(".//*"))`. -/
def validate_arxml (c : ArxmlInput) : ValidationReport :=
  match c.parsed with
  | Except.error msg =>
    let errs := ["XML syntax error: " ++ msg]
    { valid := errs.isEmpty, errors := errs, warnings := [],
      recommendations := [], elementCount := 0 }
  | Except.ok root =>
    let errs := root_tag_errors root
    let warns := ar_packages_warnings root ++ namespace_warnings root
                   ++ duplicate_warnings root
    let recs :=
      (if c.len < 500 then
        ["Configuration seems minimal; consider adding more modules"]
       else [])
      ++ [ "Consider adding ADMIN-DATA section with revision history",
           "Verify parameter values against ECU hardware specifications" ]
    { valid := errs.isEmpty, errors := errs, warnings := warns,
      recommendations := recs, elementCount := root.descendants.length }

/-! ## Merger (`merge_configurations`) -/

/-- What the merger can observe of one fragment's `module.get('arxml', '')`
string: empty (falsy, skipped), unparseable (the caught exception's
message), or parsed to a root element. -/
inductive FragDoc : Type where
  | empty : FragDoc
  | bad : String → FragDoc
  | good : XElem → FragDoc

/-- One entry of the `modules` list: `module.get('type', 'Unknown')`
(already defaulted) and the document text. -/
structure PyModule where
  moduleType : String
  doc : FragDoc

/-- The package elements the merger extracts from one parsed fragment:
namespace-qualified `findall(".//{ns}AR-PACKAGE")` with an unqualified
fallback. -/
def module_packages (r : XElem) : List XElem :=
  let q := findall_tag r (qtag "AR-PACKAGE")
  if q.isEmpty then findall_tag r "AR-PACKAGE" else q

/-- One iteration of the merge loop over `modules`: the state is the
children list of the project `AR-PACKAGE` so far and the accumulated
`logger.warning` messages. -/
def merge_step (acc : List XElem × List String) (m : PyModule) :
    List XElem × List String :=
  match m.doc with
  | FragDoc.empty => acc
  | FragDoc.bad emsg =>
    (acc.1, acc.2 ++ ["Failed to merge module " ++ m.moduleType ++ ": " ++ emsg])
  | FragDoc.good r => (acc.1 ++ module_packages r, acc.2)

/-- `merge_configurations(modules, project_name, ecu_name)`: root with admin
data, one project package holding its SHORT-NAME, an `ELEMENTS` container
with the `ECU-INSTANCE`, and then every package appended by the loop.
Returns the final tree together with the warnings the loop logged. -/
def merge_configurations (modules : List PyModule)
    (project_name ecu_name now : String) : XElem × List String :=
  let base : List XElem :=
    [ xt "SHORT-NAME" project_name,
      xe "ELEMENTS" [xe "ECU-INSTANCE" [xt "SHORT-NAME" ecu_name]] ]
  let st := modules.foldl merge_step (base, [])
  (XElem.mk "AUTOSAR" none (some autosarNS)
     [ admin_data_subtree "1.0.0" now,
       xe "AR-PACKAGES" [XElem.mk "AR-PACKAGE" none none st.1] ],
   st.2)

/-! ## Key-access order of the generators

The generators read required parameters from the `params` dict with
`params['key']`, which raises `KeyError` when the key is missing.  The
following variants record, for each required key, whether the failure
happens before or after tree construction has begun:

* `generate_can_config` reads `ecuType` and then `baudrate` inside the
  `logger.info` f-string on its first line, before `create_root()`;
  `messageObjects` is first read by `range(params['messageObjects'])`
  at the message-object loop, after root, admin data, package, controller
  and baudrate config have been built.
* `generate_nvm_config` reads `blockCount` and then `blockSize` in its
  `logger.info` line; `writeStrategy` is first read inside the block loop
  body, which runs only when `blockCount >= 1`.
-/

/-- `generate_can_config`'s parameters before defaulting: each field is
`none` when the key is missing from the dict. -/
structure CanParamsOpt where
  ecuType : Option String
  baudrate : Option Int
  messageObjects : Option Int
  errorHandling : Option Bool
  wakeupSupport : Option Bool

/-- `generate_nvm_config`'s parameters before defaulting. -/
structure NvmParamsOpt where
  blockCount : Option Int
  blockSize : Option Int
  writeStrategy : Option String
  crcProtection : Option Bool
  redundancy : Option Bool
  wearLeveling : Option Bool

/-- Outcome of running a generator: a completed document, or a `KeyError`
for the named key.  The boolean records whether tree construction had
already begun when the access raised; in either case the caller receives
only the exception, never a tree. -/
inductive GenResult : Type where
  | ok : XElem → GenResult
  | keyError : String → Bool → GenResult

/-- `generate_can_config` with the dict accesses in source order. -/
def generate_can_config_checked (p : CanParamsOpt) (now : String) : GenResult :=
  match p.ecuType with
  | none => GenResult.keyError "ecuType" false
  | some e =>
    match p.baudrate with
    | none => GenResult.keyError "baudrate" false
    | some b =>
      match p.messageObjects with
      | none => GenResult.keyError "messageObjects" true
      | some m =>
        GenResult.ok (generate_can_config_tree
          { ecuType := e, baudrate := b, messageObjects := m,
            errorHandling := p.errorHandling.getD true,
            wakeupSupport := p.wakeupSupport.getD false } now)

/-- `generate_nvm_config` with the dict accesses in source order.  When
`writeStrategy` is missing but `blockCount <= 0`, the block loop never
runs, the key is never read, and a document without blocks is returned
(the strategy string is then unused by the tree). -/
def generate_nvm_config_checked (p : NvmParamsOpt) (now : String) : GenResult :=
  match p.blockCount with
  | none => GenResult.keyError "blockCount" false
  | some n =>
    match p.blockSize with
    | none => GenResult.keyError "blockSize" false
    | some s =>
      match p.writeStrategy with
      | some w =>
        GenResult.ok (generate_nvm_config_tree
          { blockCount := n, blockSize := s, writeStrategy := w,
            crcProtection := p.crcProtection.getD true,
            redundancy := p.redundancy.getD false,
            wearLeveling := p.wearLeveling.getD true } now)
      | none =>
        if n ≤ 0 then
          GenResult.ok (generate_nvm_config_tree
            { blockCount := n, blockSize := s, writeStrategy := "",
              crcProtection := p.crcProtection.getD true,
              redundancy := p.redundancy.getD false,
              wearLeveling := p.wearLeveling.getD true } now)
        else GenResult.keyError "writeStrategy" true

/-! ## lxml serialize/parse round trip

The generators build elements with plain tags under a root whose `nsmap`
declares `http://autosar.org/schema/r4.0` as the default namespace.  lxml
serializes such a tree with `xmlns="http://autosar.org/schema/r4.0"` on the
root and unprefixed tags, so re-parsing the serialized text (as
`validate_arxml` and the merger do) yields the same tree with every tag
namespace-qualified and the default namespace visible in every element's
`nsmap`.  `qualifyElem` models this round trip. -/

mutual
/-- The parse of the serialization of a generated tree: every tag becomes
namespace-qualified, texts and structure are unchanged. -/
def qualifyElem : XElem → XElem
  | .mk t x _ cs => .mk (qtag t) x (some autosarNS) (qualifyList cs)
/-- `qualifyElem` mapped over a sibling list. -/
def qualifyList : List XElem → List XElem
  | [] => []
  | c :: cs => qualifyElem c :: qualifyList cs
end

/-! ## Basic lemmas about the tree model -/

@[simp] theorem XElem.tag_mk (t : String) (x ns : Option String) (cs : List XElem) :
    (XElem.mk t x ns cs).tag = t := rfl

@[simp] theorem XElem.text_mk (t : String) (x ns : Option String) (cs : List XElem) :
    (XElem.mk t x ns cs).text = x := rfl

@[simp] theorem XElem.nsdefault_mk (t : String) (x ns : Option String) (cs : List XElem) :
    (XElem.mk t x ns cs).nsdefault = ns := rfl

@[simp] theorem XElem.children_mk (t : String) (x ns : Option String) (cs : List XElem) :
    (XElem.mk t x ns cs).children = cs := rfl

@[simp] theorem xe_tag (t : String) (cs : List XElem) : (xe t cs).tag = t := rfl

@[simp] theorem xe_text (t : String) (cs : List XElem) : (xe t cs).text = none := rfl

@[simp] theorem xe_children (t : String) (cs : List XElem) : (xe t cs).children = cs := rfl

@[simp] theorem xt_tag (t s : String) : (xt t s).tag = t := rfl

@[simp] theorem xt_text (t s : String) : (xt t s).text = some s := rfl

@[simp] theorem xt_children (t s : String) : (xt t s).children = [] := rfl

@[simp] theorem appendChild_tag (e c : XElem) : (e.appendChild c).tag = e.tag := by
  cases e; rfl

@[simp] theorem appendChild_children (e c : XElem) :
    (e.appendChild c).children = e.children ++ [c] := by
  cases e; rfl

@[simp] theorem descList_nil : descList [] = [] := by
  simp [descList]

@[simp] theorem descList_cons (c : XElem) (cs : List XElem) :
    descList (c :: cs) = (c :: c.descendants) ++ descList cs := by
  simp [descList]

@[simp] theorem descendants_mk (t : String) (x ns : Option String) (cs : List XElem) :
    (XElem.mk t x ns cs).descendants = descList cs := by
  simp [XElem.descendants]

@[simp] theorem descendants_xe (t : String) (cs : List XElem) :
    (xe t cs).descendants = descList cs := by
  simp [xe]

@[simp] theorem descendants_xt (t s : String) : (xt t s).descendants = [] := by
  simp [xt]

@[simp] theorem descList_append (xs ys : List XElem) :
    descList (xs ++ ys) = descList xs ++ descList ys := by
  induction xs with
  | nil => simp
  | cons c cs ih => simp [ih]

/-! ## String lemmas -/

theorem string_data_append (a b : String) : (a ++ b).data = a.data ++ b.data := by
  cases a; cases b; rfl

theorem string_eq_of_data {a b : String} (h : a.data = b.data) : a = b := by
  cases a; cases b
  exact congrArg String.mk h

theorem append_left_cancel_str {p a b : String} (h : p ++ a = p ++ b) : a = b := by
  apply string_eq_of_data
  have h2 := congrArg String.data h
  rw [string_data_append, string_data_append] at h2
  exact List.append_cancel_left h2

/-- A string differing from `p` at character index `i < p.length` is not
`p ++ s` for any `s`. -/
theorem ne_append_left (t p s : String) (i : Nat) (hi : i < p.data.length)
    (hne : t.data[i]? ≠ p.data[i]?) : t ≠ p ++ s := by
  intro h
  apply hne
  rw [h, string_data_append]
  exact List.getElem?_append_left hi

/-- Two appends with stems differing at a common character index differ. -/
theorem append_ne_append (p q s t : String) (i : Nat) (hip : i < p.data.length)
    (hiq : i < q.data.length) (hne : p.data[i]? ≠ q.data[i]?) : p ++ s ≠ q ++ t := by
  intro h
  apply hne
  have h2 := congrArg String.data h
  rw [string_data_append, string_data_append] at h2
  calc p.data[i]? = (p.data ++ s.data)[i]? := (List.getElem?_append_left hip).symm
    _ = (q.data ++ t.data)[i]? := by rw [h2]
    _ = q.data[i]? := List.getElem?_append_left hiq

/-! ## Injectivity of decimal rendering (`Nat.repr`, hence Python `str`) -/

/-- Numeric value of a decimal digit character. -/
def digitVal (c : Char) : Nat := c.toNat - '0'.toNat

/-- Value of a most-significant-first decimal digit string. -/
def chVal (l : List Char) : Nat := l.foldl (fun a c => 10 * a + digitVal c) 0

theorem digitVal_digitChar {d : Nat} (h : d < 10) : digitVal (Nat.digitChar d) = d := by
  interval_cases d <;> decide

theorem chVal_append_one (xs : List Char) (c : Char) :
    chVal (xs ++ [c]) = 10 * chVal xs + digitVal c := by
  unfold chVal
  rw [List.foldl_append]
  rfl

theorem toDigitsCore_acc (f : Nat) : ∀ (n : Nat) (acc : List Char),
    Nat.toDigitsCore 10 f n acc = Nat.toDigitsCore 10 f n [] ++ acc := by
  induction f with
  | zero => intro n acc; simp [Nat.toDigitsCore]
  | succ f ih =>
    intro n acc
    simp only [Nat.toDigitsCore]
    by_cases h : n / 10 = 0
    · simp [h]
    · simp only [h, if_false]
      rw [ih (n / 10) (Nat.digitChar (n % 10) :: acc),
        ih (n / 10) [Nat.digitChar (n % 10)]]
      simp

theorem toDigitsCore_val : ∀ (f n : Nat), n < f →
    chVal (Nat.toDigitsCore 10 f n []) = n := by
  intro f
  induction f with
  | zero => intro n h; omega
  | succ f ih =>
    intro n hn
    simp only [Nat.toDigitsCore]
    by_cases h : n / 10 = 0
    · simp only [h, if_true]
      have hn10 : n % 10 = n := by omega
      have hlt : n < 10 := by omega
      rw [hn10]
      simp [chVal, digitVal_digitChar hlt]
    · simp only [h, if_false]
      rw [toDigitsCore_acc, chVal_append_one]
      have hd : n / 10 < f := by
        have h1 : n / 10 < n := Nat.div_lt_self (by omega) (by omega)
        omega
      rw [ih (n / 10) hd]
      have hlt : n % 10 < 10 := Nat.mod_lt _ (by omega)
      rw [digitVal_digitChar hlt]
      omega

theorem nat_repr_injective : ∀ (m n : Nat), Nat.repr m = Nat.repr n → m = n := by
  intro m n h
  have hd : Nat.toDigits 10 m = Nat.toDigits 10 n := by
    have h1 : (Nat.toDigits 10 m).asString = (Nat.toDigits 10 n).asString := h
    have h2 := congrArg String.data h1
    simpa [List.asString] using h2
  have h1 := toDigitsCore_val (m + 1) m (by omega)
  have h2 := toDigitsCore_val (n + 1) n (by omega)
  unfold Nat.toDigits at hd
  rw [hd] at h1
  omega

theorem nat_toString_inj {m n : Nat} (h : (toString m : String) = toString n) : m = n :=
  nat_repr_injective m n h

/-! ## Duplicate detection lemmas -/

theorem pycount_le_one {l : List (Option String)} (h : l.Nodup) (x : Option String) :
    pycount l x ≤ 1 := by
  induction l with
  | nil => simp [pycount]
  | cons a as ih =>
    rcases List.nodup_cons.mp h with ⟨ha, h2⟩
    by_cases hax : a = x
    · subst hax
      have hf : as.filter (fun y => y == a) = [] := by
        rw [List.filter_eq_nil_iff]
        intro b hb hba
        exact ha (by rwa [show b = a from by simpa using hba] at hb)
      simp [pycount, List.filter_cons, hf]
    · have hb : (a == x) = false := by simpa using hax
      simpa [pycount, List.filter_cons, hb] using ih h2

theorem duplicate_names_of_nodup {l : List (Option String)} (h : l.Nodup) :
    duplicate_names l = [] := by
  unfold duplicate_names
  have hf : l.filter (fun n => decide (1 < pycount l n)) = [] := by
    rw [List.filter_eq_nil_iff]
    intro a _
    simpa using pycount_le_one h a
  rw [hf]
  simp

/-! ## Lemmas about the serialize/parse round trip -/

@[simp] theorem qualifyElem_mk (t : String) (x ns : Option String) (cs : List XElem) :
    qualifyElem (XElem.mk t x ns cs) = XElem.mk (qtag t) x (some autosarNS) (qualifyList cs) := by
  simp [qualifyElem]

@[simp] theorem qualifyList_nil : qualifyList [] = [] := by
  simp [qualifyList]

@[simp] theorem qualifyList_cons (c : XElem) (cs : List XElem) :
    qualifyList (c :: cs) = qualifyElem c :: qualifyList cs := by
  simp [qualifyList]

theorem qualifyList_eq_map (cs : List XElem) : qualifyList cs = cs.map qualifyElem := by
  induction cs with
  | nil => simp
  | cons c cs ih => simp [ih]

@[simp] theorem qualifyElem_tag (e : XElem) : (qualifyElem e).tag = qtag e.tag := by
  cases e; simp

@[simp] theorem qualifyElem_text (e : XElem) : (qualifyElem e).text = e.text := by
  cases e; simp

@[simp] theorem qualifyElem_nsdefault (e : XElem) :
    (qualifyElem e).nsdefault = some autosarNS := by
  cases e; simp

mutual
theorem descendants_qualifyElem : ∀ (e : XElem),
    (qualifyElem e).descendants = e.descendants.map qualifyElem
  | .mk t x ns cs => by
    simp only [qualifyElem, XElem.descendants, descList_qualifyList cs]
theorem descList_qualifyList : ∀ (cs : List XElem),
    descList (qualifyList cs) = (descList cs).map qualifyElem
  | [] => by simp [qualifyList, descList]
  | c :: cs => by
    simp only [qualifyList_cons, descList_cons, List.map_append, List.map_cons,
      descendants_qualifyElem c, descList_qualifyList cs]
end

theorem qtag_inj {a b : String} (h : qtag a = qtag b) : a = b := by
  unfold qtag at h
  exact append_left_cancel_str h

theorem qtag_beq (a b : String) : (qtag a == qtag b) = (a == b) := by
  by_cases h : a = b
  · subst h; simp
  · have hq : qtag a ≠ qtag b := fun hqe => h (qtag_inj hqe)
    simp [h, hq]

/-- `findall` with a qualified tag on a parsed (qualified) document finds
exactly the images of what the unqualified `findall` finds on the raw tree. -/
theorem findall_qualify (e : XElem) (t : String) :
    findall_tag (qualifyElem e) (qtag t) = (findall_tag e t).map qualifyElem := by
  unfold findall_tag
  rw [descendants_qualifyElem, List.filter_map]
  congr 1
  apply List.filter_congr
  intro c _
  simp only [Function.comp_apply, qualifyElem_tag]
  exact qtag_beq c.tag t

/-! ## Shape lemmas for the generated CAN document -/

theorem can_hw_filter_hw (l : List Int) :
    (descList (l.map can_hw_object)).filter (fun c => c.tag == "CAN-HW-OBJECT") =
      l.map can_hw_object := by
  induction l with
  | nil => simp
  | cons i is ih => simp [can_hw_object, ih]

theorem can_hw_filter_sn (l : List Int) :
    (descList (l.map can_hw_object)).filter (fun c => c.tag == "SHORT-NAME") =
      l.map (fun i => xt "SHORT-NAME" ("CanHwObject_" ++ toString i)) := by
  induction l with
  | nil => simp
  | cons i is ih => simp [can_hw_object, ih]

theorem can_hw_filter_bc (l : List Int) :
    (descList (l.map can_hw_object)).filter
      (fun c => c.tag == "CAN-CONTROLLER-BAUDRATE-CONFIG") = [] := by
  induction l with
  | nil => simp
  | cons i is ih => simp [can_hw_object, ih]

theorem can_hw_filter_arpkgs (l : List Int) :
    (descList (l.map can_hw_object)).filter (fun c => c.tag == "AR-PACKAGES") = [] := by
  induction l with
  | nil => simp
  | cons i is ih => simp [can_hw_object, ih]

theorem can_findall_hw (p : CanParams) (now : String) :
    findall_tag (generate_can_config_tree p now) "CAN-HW-OBJECT" =
      (pyrange p.messageObjects).map can_hw_object := by
  unfold findall_tag generate_can_config_tree
  cases p.errorHandling <;> cases p.wakeupSupport <;>
    simp [admin_data_subtree, baudrate_config_subtree, error_handling_subtree,
      wakeup_subtree, List.filter_append, can_hw_filter_hw]

theorem can_findall_bc (p : CanParams) (now : String) :
    findall_tag (generate_can_config_tree p now) "CAN-CONTROLLER-BAUDRATE-CONFIG" =
      [baudrate_config_subtree p.baudrate] := by
  unfold findall_tag generate_can_config_tree
  cases p.errorHandling <;> cases p.wakeupSupport <;>
    simp [admin_data_subtree, baudrate_config_subtree, error_handling_subtree,
      wakeup_subtree, List.filter_append, can_hw_filter_bc]

theorem can_findall_sn (p : CanParams) (now : String) :
    findall_tag (generate_can_config_tree p now) "SHORT-NAME" =
      [ xt "SHORT-NAME" "CanConfiguration",
        xt "SHORT-NAME" ("CanController_" ++ p.ecuType) ]
      ++ (pyrange p.messageObjects).map
           (fun i => xt "SHORT-NAME" ("CanHwObject_" ++ toString i)) := by
  unfold findall_tag generate_can_config_tree
  cases p.errorHandling <;> cases p.wakeupSupport <;>
    simp [admin_data_subtree, baudrate_config_subtree, error_handling_subtree,
      wakeup_subtree, List.filter_append, can_hw_filter_sn]

theorem can_findall_arpkgs (p : CanParams) (now : String) :
    findall_tag (generate_can_config_tree p now) "AR-PACKAGES" ≠ [] := by
  unfold findall_tag generate_can_config_tree
  cases p.errorHandling <;> cases p.wakeupSupport <;>
    simp [admin_data_subtree, baudrate_config_subtree, error_handling_subtree,
      wakeup_subtree, List.filter_append, can_hw_filter_arpkgs]

/-! ## Shape lemmas for the generated NvM document -/

theorem nvm_filter_block (p : NvmParams) (l : List Int) :
    (descList (l.map (nvm_block p))).filter (fun c => c.tag == "NVM-BLOCK") =
      l.map (nvm_block p) := by
  induction l with
  | nil => simp
  | cons i is ih =>
    cases hc : p.crcProtection <;> cases hr : p.redundancy <;>
      simp [nvm_block, hc, hr, ih, List.filter_append]

theorem nvm_filter_sn (p : NvmParams) (l : List Int) :
    (descList (l.map (nvm_block p))).filter (fun c => c.tag == "SHORT-NAME") =
      l.map (fun i => xt "SHORT-NAME" ("NvMBlock_" ++ toString i)) := by
  induction l with
  | nil => simp
  | cons i is ih =>
    cases hc : p.crcProtection <;> cases hr : p.redundancy <;>
      simp [nvm_block, hc, hr, ih, List.filter_append]

theorem nvm_filter_arpkgs (p : NvmParams) (l : List Int) :
    (descList (l.map (nvm_block p))).filter (fun c => c.tag == "AR-PACKAGES") = [] := by
  induction l with
  | nil => simp
  | cons i is ih =>
    cases hc : p.crcProtection <;> cases hr : p.redundancy <;>
      simp [nvm_block, hc, hr, ih, List.filter_append]

theorem nvm_findall_blocks (p : NvmParams) (now : String) :
    findall_tag (generate_nvm_config_tree p now) "NVM-BLOCK" =
      (pyrange p.blockCount).map (nvm_block p) := by
  unfold findall_tag generate_nvm_config_tree
  cases p.wearLeveling <;>
    simp [admin_data_subtree, wear_leveling_subtree, List.filter_append,
      nvm_filter_block]

theorem nvm_findall_sn (p : NvmParams) (now : String) :
    findall_tag (generate_nvm_config_tree p now) "SHORT-NAME" =
      [ xt "SHORT-NAME" "NvMConfiguration",
        xt "SHORT-NAME" "NvMBlockConfiguration" ]
      ++ (pyrange p.blockCount).map
           (fun i => xt "SHORT-NAME" ("NvMBlock_" ++ toString i)) := by
  unfold findall_tag generate_nvm_config_tree
  cases p.wearLeveling <;>
    simp [admin_data_subtree, wear_leveling_subtree, List.filter_append,
      nvm_filter_sn]

theorem nvm_findall_arpkgs (p : NvmParams) (now : String) :
    findall_tag (generate_nvm_config_tree p now) "AR-PACKAGES" ≠ [] := by
  unfold findall_tag generate_nvm_config_tree
  cases p.wearLeveling <;>
    simp [admin_data_subtree, wear_leveling_subtree, List.filter_append,
      nvm_filter_arpkgs]

/-! ## Claim C3: the timing resolver -/

/-- C3: `calculate_can_timing` returns {prop-seg 6, phase-seg-1 7,
phase-seg-2 2, sjw 1} for 125, 250 and 500; {5, 6, 2, 1} for 1000; and the
500 kbps tuple {6, 7, 2, 1} for any other integer (it is a total function,
so it never fails). -/
theorem claim_c3_calculate_can_timing :
    calculate_can_timing 125 = ⟨6, 7, 2, 1⟩
    ∧ calculate_can_timing 250 = ⟨6, 7, 2, 1⟩
    ∧ calculate_can_timing 500 = ⟨6, 7, 2, 1⟩
    ∧ calculate_can_timing 1000 = ⟨5, 6, 2, 1⟩
    ∧ ∀ b : Int, b ≠ 125 → b ≠ 250 → b ≠ 500 → b ≠ 1000 →
        calculate_can_timing b = ⟨6, 7, 2, 1⟩ := by
  refine ⟨by simp [calculate_can_timing], by simp [calculate_can_timing],
    by simp [calculate_can_timing], by simp [calculate_can_timing], ?_⟩
  intro b h1 h2 h3 h4
  simp [calculate_can_timing, h1, h2, h3, h4]

/-- Witness for C3: the fallback branch at the unmapped rate 300. -/
theorem claim_c3_witness : calculate_can_timing 300 = ⟨6, 7, 2, 1⟩ :=
  claim_c3_calculate_can_timing.2.2.2.2 300 (by decide) (by decide) (by decide)
    (by decide)

/-! ## Claim C4: the validator never raises and reports parse failures -/

/-- C4: `validate_arxml` is a total function of its input; the report is
valid iff its error list is empty (warnings and recommendations play no
part in `valid`), and a parse failure yields exactly one error beginning
"XML syntax error" together with `elementCount = 0`. -/
theorem claim_c4_validate_arxml :
    ∀ (c : ArxmlInput),
      ((validate_arxml c).valid = true ↔ (validate_arxml c).errors = [])
      ∧ (∀ msg, c.parsed = Except.error msg →
          (validate_arxml c).errors = ["XML syntax error: " ++ msg]
          ∧ (validate_arxml c).elementCount = 0) := by
  intro c
  constructor
  · cases hp : c.parsed with
    | error msg => simp [validate_arxml, hp]
    | ok root => simp [validate_arxml, hp, List.isEmpty_iff]
  · intro msg hmsg
    simp [validate_arxml, hmsg]

/-- Witness for C4 at a concrete unparseable input. -/
theorem claim_c4_witness :
    (validate_arxml ⟨7, Except.error "junk"⟩).errors = ["XML syntax error: " ++ "junk"]
    ∧ (validate_arxml ⟨7, Except.error "junk"⟩).elementCount = 0 :=
  (claim_c4_validate_arxml ⟨7, Except.error "junk"⟩).2 "junk" rfl

/-! ## Claim C9: the namespace check

The claim says the warning appears exactly when the declared default
namespace is *not equal* to the expected URI.  The source tests
`'http://autosar.org/schema/r4.0' not in (root.nsmap.get(None, '') or '')`,
i.e. substring containment: a namespace that strictly contains the URI
differs from it yet produces no warning. -/

/-- A document whose default namespace strictly contains the AUTOSAR URI. -/
def c9doc : XElem := XElem.mk "AUTOSAR" none (some (autosarNS ++ "/v2")) []

/-- Counterexample to C9 as stated: for `c9doc` the declared namespace
differs from the exact URI, yet no warning is emitted, because the source
checks substring containment rather than equality. -/
theorem claim_c9_counterexample :
    ¬ (("Standard AUTOSAR namespace not declared"
          ∈ (validate_arxml ⟨600, Except.ok c9doc⟩).warnings)
        ↔ (c9doc.nsdefault).getD "" ≠ autosarNS) := by
  decide

/-- C9 (amended): the warning is appended exactly when the expected URI is
not a substring of the declared default namespace (the empty string when no
default namespace is declared).  In particular the exact URI produces no
warning, but a differing namespace containing the URI produces none
either. -/
theorem claim_c9_namespace_warning :
    ∀ (root : XElem) (len : Nat),
      ("Standard AUTOSAR namespace not declared"
          ∈ (validate_arxml ⟨len, Except.ok root⟩).warnings)
      ↔ pyStrIn autosarNS ((root.nsdefault).getD "") = false := by
  intro root len
  have hdup : ∀ s : String,
      "Standard AUTOSAR namespace not declared" ≠ "Duplicate SHORT-NAMEs found: " ++ s :=
    fun s => ne_append_left _ _ s 0 (by decide) (by decide)
  have har : ("Standard AUTOSAR namespace not declared" : String) ≠
      "No AR-PACKAGES found in configuration" := by decide
  have hnd : "Standard AUTOSAR namespace not declared" ∉ duplicate_warnings root := by
    by_cases hd : (duplicate_names (short_names_of root)).isEmpty
    · simp [duplicate_warnings, hd]
    · simp [duplicate_warnings, hd, hdup]
  simp only [validate_arxml, List.mem_append]
  unfold ar_packages_warnings namespace_warnings
  split <;> split <;>
    simp_all [List.mem_singleton]

/-! ## Claim C5: merger fragment tolerance -/

/-- The packages the merge loop appends, fragment by fragment in input
order: nothing for an empty or unparseable fragment, the located package
elements for a parsed one (claim-side characterization of the loop). -/
def merged_packages : List PyModule → List XElem
  | [] => []
  | m :: ms =>
    (match m.doc with
     | FragDoc.good r => module_packages r
     | _ => []) ++ merged_packages ms

/-- The warnings the merge loop logs, in input order: one per fragment
whose parse (or package lookup) failed, none for empty or parsed
fragments (claim-side characterization of the loop). -/
def merge_warning_list : List PyModule → List String
  | [] => []
  | m :: ms =>
    (match m.doc with
     | FragDoc.bad emsg =>
       ["Failed to merge module " ++ m.moduleType ++ ": " ++ emsg]
     | _ => []) ++ merge_warning_list ms

theorem merge_foldl (ms : List PyModule) (cs : List XElem) (ws : List String) :
    ms.foldl merge_step (cs, ws) =
      (cs ++ merged_packages ms, ws ++ merge_warning_list ms) := by
  induction ms generalizing cs ws with
  | nil => simp [merged_packages, merge_warning_list]
  | cons m ms ih =>
    cases hm : m.doc <;>
      simp [merge_step, hm, ih, merged_packages, merge_warning_list,
        List.append_assoc]

/-- C5: `merge_configurations` is a total function of the whole fragment
list — one bad fragment never aborts it.  Empty fragments are skipped
without error; each unparseable fragment contributes exactly one warning
while merging continues with the remaining fragments in input order; and
every package element located in a successfully parsed fragment ends up,
in input order, as a child of the project package of the output
document. -/
theorem claim_c5_merge_configurations :
    ∀ (modules : List PyModule) (project ecu now : String),
      merge_configurations modules project ecu now =
        (XElem.mk "AUTOSAR" none (some autosarNS)
          [ admin_data_subtree "1.0.0" now,
            xe "AR-PACKAGES"
              [ XElem.mk "AR-PACKAGE" none none
                  ([ xt "SHORT-NAME" project,
                     xe "ELEMENTS" [xe "ECU-INSTANCE" [xt "SHORT-NAME" ecu]] ]
                    ++ merged_packages modules) ] ],
         merge_warning_list modules) := by
  intro modules project ecu now
  unfold merge_configurations
  simp only [merge_foldl, List.nil_append]

/-! ## Claim C7: `create_ar_package` called twice with the same name

The claim asserts idempotence: the second call should create neither a
second `AR-PACKAGES` container nor a duplicate package.  The source
unconditionally appends a new `AR-PACKAGE` into the (unique) container, so
the second call *does* append a duplicate sibling. -/

/-- The `AR-PACKAGES` containers among a parent's direct children. -/
def containers (parent : XElem) : List XElem :=
  parent.children.filter (fun c => c.tag == "AR-PACKAGES")

/-- The `AR-PACKAGE` elements inside the containers of a children list. -/
def pkgs_in : List XElem → List XElem
  | [] => []
  | c :: cs =>
    (if c.tag == "AR-PACKAGES"
     then c.children.filter (fun q => q.tag == "AR-PACKAGE") else [])
      ++ pkgs_in cs

/-- The packages under a parent whose SHORT-NAME text equals `name`. -/
def packages_named (parent : XElem) (name : String) : List XElem :=
  (pkgs_in parent.children).filter
    (fun q => child_text q "SHORT-NAME" == some name)

/-- An empty root, as `create_root` yields before any package exists. -/
def c7root : XElem := XElem.mk "AUTOSAR" none none []

/-- Counterexample to C7 as stated: two calls with the same name under the
same parent leave two `AR-PACKAGE` siblings with that short name (while the
container is indeed created only once). -/
theorem claim_c7_counterexample :
    (packages_named (create_ar_package (create_ar_package c7root "P") "P") "P").length = 2
    ∧ (containers (create_ar_package (create_ar_package c7root "P") "P")).length = 1 := by
  decide

theorem containers_len_append_into (pkg : XElem) (cs : List XElem) :
    ((append_into_first_container pkg cs).filter
        (fun c => c.tag == "AR-PACKAGES")).length =
      max 1 ((cs.filter (fun c => c.tag == "AR-PACKAGES")).length) := by
  induction cs with
  | nil => simp [append_into_first_container]
  | cons c cs ih =>
    cases h : (c.tag == "AR-PACKAGES") with
    | false => simp [append_into_first_container, List.filter_cons, h, ih]
    | true =>
      simp [append_into_first_container, List.filter_cons, h]

theorem named_count_append_into (pkg : XElem) (hpkg : (pkg.tag == "AR-PACKAGE") = true)
    (P : XElem → Bool) (cs : List XElem) :
    ((pkgs_in (append_into_first_container pkg cs)).filter P).length =
      ((pkgs_in cs).filter P).length + (if P pkg then 1 else 0) := by
  induction cs with
  | nil =>
    cases hp : P pkg <;>
      simp [append_into_first_container, pkgs_in, List.filter_cons, hpkg, hp]
  | cons c cs ih =>
    cases h : (c.tag == "AR-PACKAGES") with
    | false => simp [append_into_first_container, pkgs_in, h, ih]
    | true =>
      cases hp : P pkg <;>
        simp [append_into_first_container, pkgs_in, h, hp, List.filter_append,
          List.filter_cons, hpkg] <;> omega

/-- C7 (amended): calling `create_ar_package` twice with the same name
under the same parent creates the `AR-PACKAGES` container at most once
(the second call reuses it), but the second call appends a second
`AR-PACKAGE` with the same short name instead of returning the existing
one — the function always appends and is not idempotent. -/
theorem claim_c7_create_ar_package :
    ∀ (parent : XElem) (name : String),
      (containers (create_ar_package (create_ar_package parent name) name)).length =
        (containers (create_ar_package parent name)).length
      ∧ (packages_named (create_ar_package (create_ar_package parent name) name) name).length =
          (packages_named (create_ar_package parent name) name).length + 1 := by
  intro parent name
  constructor
  · unfold containers create_ar_package
    simp only [XElem.children_mk]
    rw [containers_len_append_into, containers_len_append_into]
    omega
  · unfold packages_named create_ar_package
    simp only [XElem.children_mk]
    rw [named_count_append_into _ (by simp) _,
      named_count_append_into _ (by simp) _]
    have hp : (child_text (XElem.mk "AR-PACKAGE" none none [xt "SHORT-NAME" name])
        "SHORT-NAME" == some name) = true := by
      simp [child_text, find_child, List.find?]
    simp [hp]

/-! ## Claim C8: fail-fast behavior of the generators

The claim asserts every missing required field makes the generator fail
before any tree construction.  That holds for the fields read by the
initial `logger.info` lines (`ecuType`, `baudrate`; `blockCount`,
`blockSize`), but `messageObjects` and `writeStrategy` are first read
inside the construction code, so their `KeyError` is raised only after
tree nodes have been built — and a missing `writeStrategy` with
`blockCount <= 0` raises nothing at all.  The caller still never receives
a partial document: a raising call yields only the exception. -/

/-- A CAN parameter record with `messageObjects` missing. -/
def c8can : CanParamsOpt :=
  { ecuType := some "powertrain", baudrate := some 500, messageObjects := none,
    errorHandling := none, wakeupSupport := none }

/-- Counterexample to C8 as stated: with `messageObjects` missing the
generator raises its `KeyError` only during tree construction (flag
`true`), not before any tree construction (flag `false`). -/
theorem claim_c8_counterexample :
    generate_can_config_checked c8can "2024-01-01T00:00:00" =
      GenResult.keyError "messageObjects" true
    ∧ ¬ ∃ k, generate_can_config_checked c8can "2024-01-01T00:00:00" =
        GenResult.keyError k false := by
  constructor
  · rfl
  · rintro ⟨k, hk⟩
    rw [show generate_can_config_checked c8can "2024-01-01T00:00:00" =
        GenResult.keyError "messageObjects" true from rfl] at hk
    simp at hk

/-- C8 (amended): missing `ecuType` or `baudrate` (CAN) and missing
`blockCount` or `blockSize` (NvM) raise before any tree construction;
missing `messageObjects` (CAN) or missing `writeStrategy` with
`blockCount >= 1` (NvM) raise during tree construction; missing
`writeStrategy` with `blockCount <= 0` raises nothing and returns a
complete document.  Whenever a required key access raises, the caller
receives only the `KeyError` — never a partial document. -/
theorem claim_c8_generator_failures :
    ∀ (p : CanParamsOpt) (q : NvmParamsOpt) (now : String),
      (p.ecuType = none →
        generate_can_config_checked p now = GenResult.keyError "ecuType" false)
      ∧ (∀ e, p.ecuType = some e → p.baudrate = none →
          generate_can_config_checked p now = GenResult.keyError "baudrate" false)
      ∧ (∀ e b, p.ecuType = some e → p.baudrate = some b →
          p.messageObjects = none →
          generate_can_config_checked p now = GenResult.keyError "messageObjects" true)
      ∧ (∀ e b m, p.ecuType = some e → p.baudrate = some b →
          p.messageObjects = some m →
          ∃ doc, generate_can_config_checked p now = GenResult.ok doc)
      ∧ (q.blockCount = none →
          generate_nvm_config_checked q now = GenResult.keyError "blockCount" false)
      ∧ (∀ n, q.blockCount = some n → q.blockSize = none →
          generate_nvm_config_checked q now = GenResult.keyError "blockSize" false)
      ∧ (∀ n s, q.blockCount = some n → q.blockSize = some s →
          q.writeStrategy = none → 1 ≤ n →
          generate_nvm_config_checked q now = GenResult.keyError "writeStrategy" true)
      ∧ (∀ n s, q.blockCount = some n → q.blockSize = some s →
          q.writeStrategy = none → n ≤ 0 →
          ∃ doc, generate_nvm_config_checked q now = GenResult.ok doc)
      ∧ (∀ n s w, q.blockCount = some n → q.blockSize = some s →
          q.writeStrategy = some w →
          ∃ doc, generate_nvm_config_checked q now = GenResult.ok doc) := by
  intro p q now
  refine ⟨?_, ?_, ?_, ?_, ?_, ?_, ?_, ?_, ?_⟩
  · intro h; simp [generate_can_config_checked, h]
  · intro e he hb; simp [generate_can_config_checked, he, hb]
  · intro e b he hb hm; simp [generate_can_config_checked, he, hb, hm]
  · intro e b m he hb hm
    refine ⟨generate_can_config_tree
      ⟨e, b, m, p.errorHandling.getD true, p.wakeupSupport.getD false⟩ now, ?_⟩
    simp [generate_can_config_checked, he, hb, hm]
  · intro h; simp [generate_nvm_config_checked, h]
  · intro n hn hs; simp [generate_nvm_config_checked, hn, hs]
  · intro n s hn hs hw h1
    have : ¬ n ≤ 0 := by omega
    simp [generate_nvm_config_checked, hn, hs, hw, this]
  · intro n s hn hs hw h0
    refine ⟨generate_nvm_config_tree
      ⟨n, s, "", q.crcProtection.getD true, q.redundancy.getD false,
        q.wearLeveling.getD true⟩ now, ?_⟩
    simp [generate_nvm_config_checked, hn, hs, hw, h0]
  · intro n s w hn hs hw
    refine ⟨generate_nvm_config_tree
      ⟨n, s, w, q.crcProtection.getD true, q.redundancy.getD false,
        q.wearLeveling.getD true⟩ now, ?_⟩
    simp [generate_nvm_config_checked, hn, hs, hw]

/-- Witness for C8 (amended) at concrete records with all keys missing. -/
theorem claim_c8_witness :
    generate_can_config_checked ⟨none, none, none, none, none⟩ "T" =
      GenResult.keyError "ecuType" false :=
  (claim_c8_generator_failures ⟨none, none, none, none, none⟩
    ⟨none, none, none, none, none, none⟩ "T").1 rfl

/-! ## Claim C1: the CAN generator's hardware objects and baudrate config -/

/-- Formal statement of claim C1 for one parameter record: the document
contains exactly `messageObjects` hardware-object entries; entry `i` has
direction TRANSMIT for even `i` and RECEIVE for odd `i` and numeric
identifier `0x100 + i` (rendered in decimal by `str`); and the unique
baudrate-configuration element carries the baudrate times 1000 together
with the four timing fields of the Timing Resolver. -/
def ClaimC1Statement (p : CanParams) (now : String) : Prop :=
  (findall_tag (generate_can_config_tree p now) "CAN-HW-OBJECT").length =
      p.messageObjects.toNat
  ∧ (∀ i : Nat, i < p.messageObjects.toNat →
      ∃ o, (findall_tag (generate_can_config_tree p now) "CAN-HW-OBJECT")[i]? = some o
        ∧ child_text o "OBJECT-TYPE" =
            some (if i % 2 = 0 then "TRANSMIT" else "RECEIVE")
        ∧ child_text o "CAN-OBJECT-ID" = some (toString (256 + i)))
  ∧ (∃ bc, findall_tag (generate_can_config_tree p now)
        "CAN-CONTROLLER-BAUDRATE-CONFIG" = [bc]
      ∧ child_text bc "BAUDRATE" = some (toString (p.baudrate * 1000))
      ∧ child_text bc "PROP-SEG" =
          some (toString (calculate_can_timing p.baudrate).prop_seg)
      ∧ child_text bc "PHASE-SEG1" =
          some (toString (calculate_can_timing p.baudrate).phase_seg1)
      ∧ child_text bc "PHASE-SEG2" =
          some (toString (calculate_can_timing p.baudrate).phase_seg2)
      ∧ child_text bc "SYNC-JUMP-WIDTH" =
          some (toString (calculate_can_timing p.baudrate).sjw))

/-- C1: for every valid parameter record the generated CAN document has
the hardware objects and baudrate configuration the claim describes. -/
theorem claim_c1_generate_can_config :
    ∀ (p : CanParams) (now : String),
      p.ecuType ∈ ["powertrain", "body", "chassis", "telematics", "gateway"] →
      p.baudrate ∈ ([125, 250, 500, 1000] : List Int) →
      1 ≤ p.messageObjects → p.messageObjects ≤ 128 →
      ClaimC1Statement p now := by
  intro p now _ _ _ _
  refine ⟨?_, ?_, ?_⟩
  · rw [can_findall_hw]
    simp [pyrange]
  · intro i hi
    refine ⟨can_hw_object (Int.ofNat i), ?_, ?_, ?_⟩
    · rw [can_findall_hw]
      simp [pyrange, List.getElem?_map, List.getElem?_range, hi]
    · unfold can_hw_object child_text find_child
      have h2 : (Int.ofNat i % 2 = 0) ↔ (i % 2 = 0) := by
        show ((i : Int) % 2 = 0) ↔ (i % 2 = 0)
        omega
      by_cases hpar : i % 2 = 0
      · rw [if_pos (h2.mpr hpar), if_pos hpar]
        simp
      · rw [if_neg (fun hc => hpar (h2.mp hc)), if_neg hpar]
        simp
    · unfold can_hw_object child_text find_child
      have hts : toString ((256 : Int) + (i : Int)) = toString ((256 + i : Nat)) := by
        have h : (256 : Int) + (i : Int) = ((256 + i : Nat) : Int) := by
          push_cast
          ring
        rw [h]
        rfl
      simp [hts]
  · refine ⟨baudrate_config_subtree p.baudrate, can_findall_bc p now,
      ?_, ?_, ?_, ?_, ?_⟩ <;>
      simp [baudrate_config_subtree, child_text, find_child]

/-- Witness for C1 at end-to-end scenario 1 of the spec. -/
theorem claim_c1_witness : ClaimC1Statement ⟨"powertrain", 500, 2, true, false⟩ "T" :=
  claim_c1_generate_can_config ⟨"powertrain", 500, 2, true, false⟩ "T"
    (by decide) (by decide) (by decide) (by decide)

/-! ## Claim C2: the NvM generator's blocks -/

/-- Formal statement of claim C2 for one parameter record: exactly
`blockCount` blocks; block `i` (0-based) has identifier `i + 1`, length
field `blockSize`, write strategy mapped through the 3-entry table, and a
storage descriptor whose address is `i * blockSize` rendered by Python's
`hex`; together with the table itself including its fallback. -/
def ClaimC2Statement (p : NvmParams) (now : String) : Prop :=
  (findall_tag (generate_nvm_config_tree p now) "NVM-BLOCK").length =
      p.blockCount.toNat
  ∧ (∀ i : Nat, i < p.blockCount.toNat →
      ∃ b, (findall_tag (generate_nvm_config_tree p now) "NVM-BLOCK")[i]? = some b
        ∧ child_text b "NVM-BLOCK-ID" = some (toString (i + 1))
        ∧ child_text b "NVM-BLOCK-LENGTH" = some (toString p.blockSize)
        ∧ child_text b "NVM-WRITE-STRATEGY" =
            some (write_strategy_map p.writeStrategy)
        ∧ (∃ st, find_child b "NVM-BLOCK-STORAGE" = some st
            ∧ child_text st "STORAGE-ADDRESS" =
                some (pyhex ((i : Int) * p.blockSize))))
  ∧ write_strategy_map "immediate" = "NVM_WRITE_BLOCK_ONCE"
  ∧ write_strategy_map "deferred" = "NVM_WRITE_BLOCK_CYCLIC"
  ∧ write_strategy_map "triggered" = "NVM_WRITE_BLOCK_TRIGGERED"
  ∧ (∀ w, w ≠ "immediate" → w ≠ "deferred" → w ≠ "triggered" →
      write_strategy_map w = "NVM_WRITE_BLOCK_CYCLIC")

/-- C2: for every valid parameter record the generated NvM document has
the blocks, identifiers, lengths, addresses and write strategies the claim
describes. -/
theorem claim_c2_generate_nvm_config :
    ∀ (p : NvmParams) (now : String),
      1 ≤ p.blockCount → p.blockCount ≤ 256 →
      1 ≤ p.blockSize → p.blockSize ≤ 65535 →
      ClaimC2Statement p now := by
  intro p now _ _ _ _
  refine ⟨?_, ?_, by simp [write_strategy_map], by simp [write_strategy_map],
    by simp [write_strategy_map], ?_⟩
  · rw [nvm_findall_blocks]
    simp [pyrange]
  · intro i hi
    refine ⟨nvm_block p (Int.ofNat i), ?_, ?_, ?_, ?_, ?_⟩
    · rw [nvm_findall_blocks]
      simp [pyrange, List.getElem?_map, List.getElem?_range, hi]
    · unfold nvm_block child_text find_child
      have hts : toString ((i : Int) + 1) = toString ((i + 1 : Nat)) := by
        have h : ((i : Int)) + 1 = ((i + 1 : Nat) : Int) := by
          push_cast
          ring
        rw [h]
        rfl
      cases hc : p.crcProtection <;> cases hr : p.redundancy <;>
        simp [hc, hr, hts]
    · unfold nvm_block child_text find_child
      cases hc : p.crcProtection <;> cases hr : p.redundancy <;> simp [hc, hr]
    · unfold nvm_block child_text find_child
      cases hc : p.crcProtection <;> cases hr : p.redundancy <;> simp [hc, hr]
    · refine ⟨xe "NVM-BLOCK-STORAGE"
        [ xt "STORAGE-DEVICE" "EEPROM",
          xt "STORAGE-ADDRESS" (pyhex (Int.ofNat i * p.blockSize)) ], ?_, ?_⟩
      · unfold nvm_block find_child
        cases hc : p.crcProtection <;> cases hr : p.redundancy <;> simp [hc, hr]
      · simp [child_text, find_child]
  · intro w h1 h2 h3
    simp [write_strategy_map, h1, h2, h3]

/-- Witness for C2 at end-to-end scenario 2 of the spec. -/
theorem claim_c2_witness : ClaimC2Statement ⟨3, 16, "immediate", true, false, true⟩ "T" :=
  claim_c2_generate_nvm_config ⟨3, 16, "immediate", true, false, true⟩ "T"
    (by decide) (by decide) (by decide) (by decide)

/-! ## Claim C6: round trip through the validator -/

/-- C6: validating the (serialized and re-parsed) output of
`generate_can_config` reports `valid = true` and a positive element count,
for every well-formed parameter record and any content length. -/
theorem claim_c6_roundtrip :
    ∀ (p : CanParams) (now : String) (len : Nat),
      p.ecuType ∈ ["powertrain", "body", "chassis", "telematics", "gateway"] →
      p.baudrate ∈ ([125, 250, 500, 1000] : List Int) →
      1 ≤ p.messageObjects → p.messageObjects ≤ 128 →
      (validate_arxml ⟨len,
          Except.ok (qualifyElem (generate_can_config_tree p now))⟩).valid = true
      ∧ 0 < (validate_arxml ⟨len,
          Except.ok (qualifyElem (generate_can_config_tree p now))⟩).elementCount := by
  intro p now len _ _ _ _
  have htag : (qualifyElem (generate_can_config_tree p now)).tag = qtag "AUTOSAR" := by
    unfold generate_can_config_tree
    simp
  have hends : pyEndsWith (qtag "AUTOSAR") "\x7dAUTOSAR" = true := by decide
  have herr : root_tag_errors (qualifyElem (generate_can_config_tree p now)) = [] := by
    unfold root_tag_errors
    rw [htag]
    simp [hends]
  constructor
  · simp [validate_arxml, herr]
  · have h1 : 0 < (generate_can_config_tree p now).descendants.length := by
      unfold generate_can_config_tree
      simp [admin_data_subtree]
    simp only [validate_arxml]
    rw [descendants_qualifyElem, List.length_map]
    exact h1

/-- Witness for C6 at end-to-end scenario 1 (any content length, here 600). -/
theorem claim_c6_witness :
    (validate_arxml ⟨600,
        Except.ok (qualifyElem
          (generate_can_config_tree ⟨"powertrain", 500, 2, true, false⟩ "T"))⟩).valid = true
    ∧ 0 < (validate_arxml ⟨600,
        Except.ok (qualifyElem
          (generate_can_config_tree ⟨"powertrain", 500, 2, true, false⟩ "T"))⟩).elementCount :=
  claim_c6_roundtrip ⟨"powertrain", 500, 2, true, false⟩ "T" 600
    (by decide) (by decide) (by decide) (by decide)

/-! ## Claim C10: short-name uniqueness in generated documents -/

theorem mapped_index_names_nodup (pre : String) (n : Int) :
    ((pyrange n).map (fun i => (some (pre ++ toString i) : Option String))).Nodup := by
  unfold pyrange
  rw [List.map_map]
  apply List.Nodup.map
  · intro a b hab
    have h1 : pre ++ toString (Int.ofNat a) = pre ++ toString (Int.ofNat b) := by
      simpa using hab
    have h2 := append_left_cancel_str h1
    exact nat_repr_injective a b h2
  · exact List.nodup_range n.toNat

theorem can_sn_texts (p : CanParams) (now : String) :
    (findall_tag (generate_can_config_tree p now) "SHORT-NAME").map XElem.text =
      some "CanConfiguration" :: some ("CanController_" ++ p.ecuType) ::
        (pyrange p.messageObjects).map
          (fun i => some ("CanHwObject_" ++ toString i)) := by
  rw [can_findall_sn]
  simp

theorem nvm_sn_texts (p : NvmParams) (now : String) :
    (findall_tag (generate_nvm_config_tree p now) "SHORT-NAME").map XElem.text =
      some "NvMConfiguration" :: some "NvMBlockConfiguration" ::
        (pyrange p.blockCount).map
          (fun i => some ("NvMBlock_" ++ toString i)) := by
  rw [nvm_findall_sn]
  simp

theorem can_sn_nodup (p : CanParams) (now : String) :
    ((findall_tag (generate_can_config_tree p now) "SHORT-NAME").map XElem.text).Nodup := by
  rw [can_sn_texts]
  refine List.nodup_cons.mpr ⟨?_, List.nodup_cons.mpr ⟨?_, ?_⟩⟩
  · intro hmem
    rcases List.mem_cons.mp hmem with h | h
    · exact (ne_append_left "CanConfiguration" "CanController_" p.ecuType 6
        (by decide) (by decide)) (by simpa using h)
    · rcases List.mem_map.mp h with ⟨i, _, hix⟩
      have hx : "CanConfiguration" = "CanHwObject_" ++ toString i := by
        simpa using hix.symm
      exact (ne_append_left "CanConfiguration" "CanHwObject_" (toString i) 3
        (by decide) (by decide)) hx
  · intro hmem
    rcases List.mem_map.mp hmem with ⟨i, _, hix⟩
    have hx : "CanHwObject_" ++ toString i = "CanController_" ++ p.ecuType := by
      simpa using hix
    exact (append_ne_append "CanHwObject_" "CanController_" (toString i) p.ecuType 3
      (by decide) (by decide) (by decide)) hx
  · exact mapped_index_names_nodup "CanHwObject_" p.messageObjects

theorem nvm_sn_nodup (p : NvmParams) (now : String) :
    ((findall_tag (generate_nvm_config_tree p now) "SHORT-NAME").map XElem.text).Nodup := by
  rw [nvm_sn_texts]
  refine List.nodup_cons.mpr ⟨?_, List.nodup_cons.mpr ⟨?_, ?_⟩⟩
  · intro hmem
    rcases List.mem_cons.mp hmem with h | h
    · exact absurd (by simpa using h) (by decide :
        ("NvMConfiguration" : String) ≠ "NvMBlockConfiguration")
    · rcases List.mem_map.mp h with ⟨i, _, hix⟩
      have hx : "NvMConfiguration" = "NvMBlock_" ++ toString i := by
        simpa using hix.symm
      exact (ne_append_left "NvMConfiguration" "NvMBlock_" (toString i) 3
        (by decide) (by decide)) hx
  · intro hmem
    rcases List.mem_map.mp hmem with ⟨i, _, hix⟩
    have hx : "NvMBlockConfiguration" = "NvMBlock_" ++ toString i := by
      simpa using hix.symm
    exact (ne_append_left "NvMBlockConfiguration" "NvMBlock_" (toString i) 8
      (by decide) (by decide)) hx
  · exact mapped_index_names_nodup "NvMBlock_" p.blockCount

theorem short_names_of_qualify (doc : XElem)
    (hne : findall_tag doc "SHORT-NAME" ≠ []) :
    short_names_of (qualifyElem doc) =
      (findall_tag doc "SHORT-NAME").map XElem.text := by
  unfold short_names_of
  rw [findall_qualify, List.map_map]
  have hfun : XElem.text ∘ qualifyElem = XElem.text := by
    funext c
    simp
  rw [hfun]
  have hempty : ((findall_tag doc "SHORT-NAME").map XElem.text).isEmpty = false := by
    cases hcase : findall_tag doc "SHORT-NAME" with
    | nil => exact absurd hcase hne
    | cons a l => simp
  simp [hempty]

theorem ar_warn_qualify (doc : XElem) (h : findall_tag doc "AR-PACKAGES" ≠ []) :
    ar_packages_warnings (qualifyElem doc) = [] := by
  unfold ar_packages_warnings
  rw [findall_qualify]
  have h1 : ((findall_tag doc "AR-PACKAGES").map qualifyElem).isEmpty = false := by
    cases hcase : findall_tag doc "AR-PACKAGES" with
    | nil => exact absurd hcase h
    | cons a l => simp
  simp [h1]

theorem ns_warn_qualify (doc : XElem) :
    namespace_warnings (qualifyElem doc) = [] := by
  unfold namespace_warnings
  have h : pyStrIn autosarNS autosarNS = true := by decide
  simp [h]

theorem dup_warn_qualify (doc : XElem)
    (hne : findall_tag doc "SHORT-NAME" ≠ [])
    (hnd : ((findall_tag doc "SHORT-NAME").map XElem.text).Nodup) :
    duplicate_warnings (qualifyElem doc) = [] := by
  unfold duplicate_warnings
  rw [short_names_of_qualify doc hne, duplicate_names_of_nodup hnd]
  simp

/-- C10: in both generators' outputs all SHORT-NAME text values are
pairwise distinct — the one CAN controller name, the hardware-object
names, the NvM block names and the enclosing package/descriptor names —
and consequently the validator applied to either generator's (re-parsed)
output emits no warning at all, in particular never the
duplicate-short-name warning. -/
theorem claim_c10_short_name_uniqueness :
    ∀ (pc : CanParams) (pn : NvmParams) (now : String) (len1 len2 : Nat),
      1 ≤ pc.messageObjects → pc.messageObjects ≤ 128 →
      1 ≤ pn.blockCount → pn.blockCount ≤ 256 →
      ((findall_tag (generate_can_config_tree pc now) "SHORT-NAME").map XElem.text).Nodup
      ∧ ((findall_tag (generate_nvm_config_tree pn now) "SHORT-NAME").map XElem.text).Nodup
      ∧ (validate_arxml ⟨len1,
          Except.ok (qualifyElem (generate_can_config_tree pc now))⟩).warnings = []
      ∧ (validate_arxml ⟨len2,
          Except.ok (qualifyElem (generate_nvm_config_tree pn now))⟩).warnings = [] := by
  intro pc pn now len1 len2 _ _ _ _
  have hcan_ne : findall_tag (generate_can_config_tree pc now) "SHORT-NAME" ≠ [] := by
    rw [can_findall_sn]
    simp
  have hnvm_ne : findall_tag (generate_nvm_config_tree pn now) "SHORT-NAME" ≠ [] := by
    rw [nvm_findall_sn]
    simp
  refine ⟨can_sn_nodup pc now, nvm_sn_nodup pn now, ?_, ?_⟩
  · simp [validate_arxml,
      ar_warn_qualify _ (can_findall_arpkgs pc now),
      ns_warn_qualify,
      dup_warn_qualify _ hcan_ne (can_sn_nodup pc now)]
  · simp [validate_arxml,
      ar_warn_qualify _ (nvm_findall_arpkgs pn now),
      ns_warn_qualify,
      dup_warn_qualify _ hnvm_ne (nvm_sn_nodup pn now)]

/-- Witness for C10 at the two end-to-end scenarios of the spec. -/
theorem claim_c10_witness :
    ((findall_tag (generate_can_config_tree ⟨"powertrain", 500, 2, true, false⟩ "T")
        "SHORT-NAME").map XElem.text).Nodup
    ∧ ((findall_tag (generate_nvm_config_tree ⟨3, 16, "immediate", true, false, true⟩ "T")
        "SHORT-NAME").map XElem.text).Nodup
    ∧ (validate_arxml ⟨600, Except.ok (qualifyElem
        (generate_can_config_tree ⟨"powertrain", 500, 2, true, false⟩ "T"))⟩).warnings = []
    ∧ (validate_arxml ⟨600, Except.ok (qualifyElem
        (generate_nvm_config_tree ⟨3, 16, "immediate", true, false, true⟩ "T"))⟩).warnings = [] :=
  claim_c10_short_name_uniqueness ⟨"powertrain", 500, 2, true, false⟩
    ⟨3, 16, "immediate", true, false, true⟩ "T" 600 600
    (by decide) (by decide) (by decide) (by decide)
